import Mathlib

/-!
Shallow embedding of the LedFx frontend fragments under verification:
the TransitionCard component, the thin REST API client, and the
BladeMod-gated route table, together with theorems settling the
specification claims about them.
-/

namespace LedFx

/-- A JavaScript value, as far as the inspected code manipulates one.
Numbers are modelled as rationals (the code only stores and passes
literals such as 0 and 0.1; no float arithmetic occurs). -/
inductive JSValue where
  | undefined : JSValue
  | null : JSValue
  | bool : Bool → JSValue
  | num : Rat → JSValue
  | str : String → JSValue
  | obj : List (String × JSValue) → JSValue

/-- JavaScript truthiness of a value. -/
def truthy : JSValue → Bool
  | JSValue.undefined => false
  | JSValue.null => false
  | JSValue.bool b => b
  | JSValue.num q => q != 0
  | JSValue.str s => s != ""
  | JSValue.obj _ => true

/-- The runtime error a JavaScript property access can raise. -/
inductive JsErr where
  | typeError : JsErr

/-- JavaScript property access `v[k]` / `v.k`: throws a TypeError on
`undefined` and `null`, looks the key up on an object (yielding
`undefined` when absent), and yields `undefined` on other primitives. -/
def getProp : JSValue → String → Except JsErr JSValue
  | JSValue.undefined, _ => Except.error JsErr.typeError
  | JSValue.null, _ => Except.error JsErr.typeError
  | JSValue.obj fields, k => Except.ok ((fields.lookup k).getD JSValue.undefined)
  | JSValue.bool _, _ => Except.ok JSValue.undefined
  | JSValue.num _, _ => Except.ok JSValue.undefined
  | JSValue.str _, _ => Except.ok JSValue.undefined

/-- JavaScript short-circuit `a && b` on possibly-throwing operands:
if `a` throws, propagate; if `a` is falsy, return `a`; else evaluate `b`. -/
def jsAnd (a b : Except JsErr JSValue) : Except JsErr JSValue :=
  match a with
  | Except.error e => Except.error e
  | Except.ok v => if truthy v then b else Except.ok v

/-- The `display` prop of TransitionCard: an id and a `config` object
indexed by display id. -/
structure Display where
  id : String
  config : JSValue

/-- `display.config[display.id] && display.config[display.id].config &&
display.config[display.id].config.transition_mode` (TransitionCard line 45),
with `&&` left-associated as in JavaScript and each operand re-evaluated
as written. -/
def transition_mode (display : Display) : Except JsErr JSValue :=
  jsAnd
    (jsAnd (getProp display.config display.id)
      (do let v ← getProp display.config display.id
          getProp v "config"))
    (do let v ← getProp display.config display.id
        let w ← getProp v "config"
        getProp w "transition_mode")

/-- Same as `transition_mode` for the `transition_time` key
(TransitionCard line 46). -/
def transition_time (display : Display) : Except JsErr JSValue :=
  jsAnd
    (jsAnd (getProp display.config display.id)
      (do let v ← getProp display.config display.id
          getProp v "config"))
    (do let v ← getProp display.config display.id
        let w ← getProp v "config"
        getProp w "transition_time")

/-- An observable effect an event handler can perform: a Redux dispatch
of the `addDisplay` action (carrying its payload object) or a console log. -/
inductive Action where
  | dispatchAddDisplay : JSValue → Action
  | consoleLog : String → Action

/-- `addDevice` handler of TransitionCard: logs 'adding now' and nothing else. -/
def addDevice : List Action :=
  [Action.consoleLog "adding now"]

/-- `handleSetTransition(displayId, config)` of TransitionCard: a curried
handler that, when invoked, dispatches
`addDisplay({ "id": displayId, "config": config })`. -/
def handleSetTransition (displayId : String) (config : JSValue) : Unit → List Action :=
  fun _ => [Action.dispatchAddDisplay
    (JSValue.obj [("id", JSValue.str displayId), ("config", config)])]

/-- Whether a handler performs any `addDisplay` dispatch. -/
def containsDispatch (actions : List Action) : Bool :=
  actions.any fun a =>
    match a with
    | Action.dispatchAddDisplay _ => true
    | Action.consoleLog _ => false

/-- `schemas.transition_mode` JSON-schema fragment: its `enum` list. -/
structure TransitionModeSchema where
  enum : List String

/-- `schemas.transition_time` JSON-schema fragment: minimum, maximum
and default. -/
structure TransitionTimeSchema where
  minimum : Rat
  maximum : Rat
  default : Rat

/-- `state.schemas.displays.schema.properties`, as read by TransitionCard. -/
structure DisplaysSchemaProperties where
  transition_mode : TransitionModeSchema
  transition_time : TransitionTimeSchema

/-- A rendered `MenuItem`: its `value` prop and its child text (label). -/
structure MenuItem where
  value : String
  label : String

/-- The props of the rendered `Slider`. -/
structure SliderProps where
  defaultValue : Rat
  step : Rat
  min : Rat
  max : Rat

/-- The render output of TransitionCard: header texts, the Select
(its label, change handler and menu items) and the Slider. -/
structure TransitionCardRender where
  title : String
  subheader : String
  selectLabel : String
  selectOnChange : List Action
  menuItems : List MenuItem
  slider : SliderProps

/-- The JSX returned by TransitionCard (lines 55-80): one MenuItem per
element of `schemas.transition_mode.enum`, a Slider fed from
`schemas.transition_time`, and the Select wired to `addDevice`. -/
def renderTransitionCard (schemas : DisplaysSchemaProperties) : TransitionCardRender :=
  { title := "Transitions"
    subheader := "Seamlessly blend between effects"
    selectLabel := "Save this effect configuration as a preset"
    selectOnChange := addDevice
    menuItems := schemas.transition_mode.enum.map fun mode =>
      { value := mode, label := mode }
    slider :=
      { defaultValue := schemas.transition_time.default
        step := 1 / 10
        min := schemas.transition_time.minimum
        max := schemas.transition_time.maximum } }

/-- A concrete schemas state used to exercise the render function. -/
def exampleSchemas : DisplaysSchemaProperties :=
  { transition_mode := { enum := ["fade", "instant"] }
    transition_time := { minimum := 0, maximum := 5, default := 1 } }

/-- A concrete display whose config object has no entry for its id. -/
def exampleDisplay : Display :=
  { id := "d1", config := JSValue.obj [] }

/-- A concrete display whose config entry exists but has no nested
`config` field. -/
def exampleDisplayNoConfig : Display :=
  { id := "d1", config := JSValue.obj [("d1", JSValue.obj [("is_device", JSValue.str "d1")])] }

/-- HTTP verb used by the API client. -/
inductive Method where
  | get : Method
  | put : Method
  | post : Method
  deriving DecidableEq

/-- One HTTP request issued through `api`: verb, path and optional body. -/
structure Request where
  method : Method
  path : String
  body : Option JSValue

/-- Result of running a client operation against a backend: the value it
returns and the trace of requests it issued. -/
structure ApiResult (ρ : Type) where
  result : ρ
  requests : List Request

/-- `api.get(path)`: issues one GET request and returns the backend's answer. -/
def apiGet {ρ : Type} (backend : Request → ρ) (path : String) : ApiResult ρ :=
  { result := backend { method := Method.get, path := path, body := none }
    requests := [{ method := Method.get, path := path, body := none }] }

/-- `api.put(path, body)`: issues one PUT request and returns the backend's answer. -/
def apiPut {ρ : Type} (backend : Request → ρ) (path : String) (body : JSValue) : ApiResult ρ :=
  { result := backend { method := Method.put, path := path, body := some body }
    requests := [{ method := Method.put, path := path, body := some body }] }

/-- `api.post(path, body)`: issues one POST request and returns the backend's answer. -/
def apiPost {ρ : Type} (backend : Request → ρ) (path : String) (body : JSValue) : ApiResult ρ :=
  { result := backend { method := Method.post, path := path, body := some body }
    requests := [{ method := Method.post, path := path, body := some body }] }

/-- `shutdown()`: `api.put('/shutdown', { timeout: 0 })`. -/
def shutdown {ρ : Type} (backend : Request → ρ) : ApiResult ρ :=
  apiPut backend "/shutdown" (JSValue.obj [("timeout", JSValue.num 0)])

/-- `getSystemConfig()`: `api.get('/config')`. -/
def getSystemConfig {ρ : Type} (backend : Request → ρ) : ApiResult ρ :=
  apiGet backend "/config"

/-- `setSystemConfig(config)`: `api.post('/config', config)`. -/
def setSystemConfig {ρ : Type} (backend : Request → ρ) (config : JSValue) : ApiResult ρ :=
  apiPost backend "/config" config

/-- `getSystemInfo()`: `api.get('/info')`. -/
def getSystemInfo {ρ : Type} (backend : Request → ρ) : ApiResult ρ :=
  apiGet backend "/info"

/-- `getAudioInputs()`: `api.get('/audio/devices')`. -/
def getAudioInputs {ρ : Type} (backend : Request → ρ) : ApiResult ρ :=
  apiGet backend "/audio/devices"

/-- `updateSelectedAudioInput(data)`: `api.put('/audio/devices', data)`. -/
def updateSelectedAudioInput {ρ : Type} (backend : Request → ρ) (data : JSValue) : ApiResult ρ :=
  apiPut backend "/audio/devices" data

/-- An operation issues exactly one request and returns the backend's
answer to that request unchanged. -/
def returnsSingleRequest {ρ : Type} (backend : Request → ρ) (a : ApiResult ρ) : Prop :=
  ∃ r, a.requests = [r] ∧ a.result = backend r

/-- The view components imported by the route table. -/
inductive ViewComponent where
  | BladeboardDnDView : ViewComponent
  | DevicesView : ViewComponent
  | ScenesView : ViewComponent
  | DisplayView : ViewComponent
  | VirtualsView : ViewComponent
  | IntegrationsView : ViewComponent
  | AdvancedView : ViewComponent
  | DeveloperView : ViewComponent
  deriving DecidableEq

/-- The icons imported by the route table. -/
inductive Icon where
  | Dashboard : Icon
  | List : Icon
  | Settings : Icon
  | Tune : Icon
  | SaveAltIcon : Icon
  | BuildIcon : Icon
  | DeviceHubIcon : Icon
  | PowerIcon : Icon
  deriving DecidableEq

/-- A route entry of `viewRoutes`; fields the JavaScript object may omit
are Options, and redirect entries set `redirect` and `redirectTo`
(`redirectTo` models the JavaScript `to` field, a reserved word in Lean). -/
structure Route where
  path : String
  sidebarName : Option String
  navbarName : String
  icon : Option Icon
  component : Option ViewComponent
  redirect : Bool
  redirectTo : Option String
  deriving DecidableEq

/-- The browser's local storage, keyed by string; `getItem` of an absent
key is null, modelled by `none`. -/
def LocalStorage : Type := String → Option String

/-- Value of the leading run of decimal digits of a character list; `none`
when there is no digit (parseInt's NaN). -/
def digitsVal : List Char → Option Nat → Option Nat
  | [], acc => acc
  | c :: cs, acc =>
    if c.isDigit then digitsVal cs (some (10 * acc.getD 0 + (c.toNat - '0'.toNat)))
    else acc

/-- JavaScript `parseInt` applied to `localStorage.getItem`'s result:
`none` models NaN (absent key, or a string with no leading integer);
otherwise the leading optionally-signed decimal integer. -/
def parseIntJS : Option String → Option Int
  | none => none
  | some s =>
    match s.toList.dropWhile Char.isWhitespace with
    | '-' :: cs => (digitsVal cs none).map fun n => -(n : Int)
    | '+' :: cs => (digitsVal cs none).map fun n => (n : Int)
    | cs => (digitsVal cs none).map fun n => (n : Int)

/-- JavaScript `>` between a possibly-NaN number and an integer: any
comparison with NaN is false. -/
def jsGt : Option Int → Int → Bool
  | none, _ => false
  | some n, m => decide (n > m)

/-- The `dashboard` route constant (views.jsx lines 49-55). -/
def dashboard : Route :=
  { path := "/dashboard", sidebarName := some "Dashboard", navbarName := "Dashboard",
    icon := some Icon.Dashboard, component := some ViewComponent.BladeboardDnDView,
    redirect := false, redirectTo := none }

/-- The `virtuals` route (views.jsx lines 59-73): with a sidebar entry
when `parseInt(localStorage.getItem('BladeMod')) > 2`, without one otherwise. -/
def virtuals (ls : LocalStorage) : Route :=
  if jsGt (parseIntJS (ls "BladeMod")) 2 then
    { path := "/virtuals", sidebarName := some "Virtual Strips", navbarName := "Virtual Strips",
      icon := some Icon.DeviceHubIcon, component := some ViewComponent.VirtualsView,
      redirect := false, redirectTo := none }
  else
    { path := "/virtuals", sidebarName := none, navbarName := "Virtual Strips",
      icon := some Icon.DeviceHubIcon, component := some ViewComponent.VirtualsView,
      redirect := false, redirectTo := none }

/-- The `integrations` route (views.jsx lines 75-89): with a sidebar entry
when `parseInt(localStorage.getItem('BladeMod')) > 1`, without one otherwise. -/
def integrations (ls : LocalStorage) : Route :=
  if jsGt (parseIntJS (ls "BladeMod")) 1 then
    { path := "/integrations", sidebarName := some "Integrations", navbarName := "Integrations",
      icon := some Icon.PowerIcon, component := some ViewComponent.IntegrationsView,
      redirect := false, redirectTo := none }
  else
    { path := "/integrations", sidebarName := none, navbarName := "Integrations",
      icon := some Icon.PowerIcon, component := some ViewComponent.IntegrationsView,
      redirect := false, redirectTo := none }

/-- The `viewRoutes` table (views.jsx lines 105-151), in source order. -/
def viewRoutes (ls : LocalStorage) : List Route :=
  [dashboard,
   { path := "/displays/:displayId", sidebarName := some "Displays", navbarName := "Displays",
     icon := some Icon.List, component := some ViewComponent.DisplayView,
     redirect := false, redirectTo := none },
   { path := "/scenes", sidebarName := some "Scenes Management", navbarName := "Scenes Management",
     icon := some Icon.SaveAltIcon, component := some ViewComponent.ScenesView,
     redirect := false, redirectTo := none },
   { path := "/devices", sidebarName := some "Device Management", navbarName := "Device Management",
     icon := some Icon.Settings, component := some ViewComponent.DevicesView,
     redirect := false, redirectTo := none },
   integrations ls,
   virtuals ls,
   { path := "/settings", sidebarName := some "Settings", navbarName := "Settings",
     icon := some Icon.BuildIcon, component := some ViewComponent.AdvancedView,
     redirect := false, redirectTo := none },
   { path := "/developer/melbank", sidebarName := some "Developer", navbarName := "Developer",
     icon := some Icon.Tune, component := some ViewComponent.DeveloperView,
     redirect := false, redirectTo := none },
   { path := "/", sidebarName := none, navbarName := "Redirect",
     icon := none, component := none,
     redirect := true, redirectTo := some "/dashboard" }]

/-- A local storage whose BladeMod entry is "3". -/
def lsBlade3 : LocalStorage := fun _ => some "3"

/-- A local storage whose BladeMod entry is "0". -/
def lsBlade0 : LocalStorage := fun _ => some "0"

/-- An empty local storage: every key is absent. -/
def lsEmpty : LocalStorage := fun _ => none

/-- Claim C1: for every schemas state, TransitionCard renders one Select
MenuItem per element of `schemas.transition_mode.enum`, in enum order, with
value and label both equal to the enum element, and a Slider whose min,
max and default value are `schemas.transition_time`'s minimum, maximum
and default. -/
theorem C1_transition_card_renders_schema (schemas : DisplaysSchemaProperties) :
    (renderTransitionCard schemas).menuItems
      = schemas.transition_mode.enum.map (fun m => { value := m, label := m }) ∧
    (renderTransitionCard schemas).slider.min = schemas.transition_time.minimum ∧
    (renderTransitionCard schemas).slider.max = schemas.transition_time.maximum ∧
    (renderTransitionCard schemas).slider.defaultValue = schemas.transition_time.default :=
  ⟨rfl, rfl, rfl, rfl⟩

/-- Claim C2: two local-storage states whose BladeMod integers fall on
opposite sides of the `> 2` threshold (or of the `> 1` threshold) yield
route tables exposing different sets of routes: some route of the first
table is absent from the second. -/
theorem C2_blade_mod_gates_routes (ls1 ls2 : LocalStorage) (b1 b2 : Int)
    (h1 : parseIntJS (ls1 "BladeMod") = some b1)
    (h2 : parseIntJS (ls2 "BladeMod") = some b2)
    (h : (b1 > 2 ∧ ¬ b2 > 2) ∨ (b1 > 1 ∧ ¬ b2 > 1)) :
    ∃ r, r ∈ viewRoutes ls1 ∧ r ∉ viewRoutes ls2 := by
  rcases h with ⟨hgt, hle⟩ | ⟨hgt, hle⟩
  · have e1 : jsGt (parseIntJS (ls1 "BladeMod")) 2 = true := by
      rw [h1]; simpa [jsGt] using hgt
    have e2 : jsGt (parseIntJS (ls2 "BladeMod")) 2 = false := by
      rw [h2]; simpa [jsGt] using hle
    have hv1 : virtuals ls1 =
        { path := "/virtuals", sidebarName := some "Virtual Strips",
          navbarName := "Virtual Strips", icon := some Icon.DeviceHubIcon,
          component := some ViewComponent.VirtualsView,
          redirect := false, redirectTo := none } := by
      unfold virtuals; rw [e1]; rfl
    have hv2 : virtuals ls2 =
        { path := "/virtuals", sidebarName := none,
          navbarName := "Virtual Strips", icon := some Icon.DeviceHubIcon,
          component := some ViewComponent.VirtualsView,
          redirect := false, redirectTo := none } := by
      unfold virtuals; rw [e2]; rfl
    refine ⟨virtuals ls1, by simp [viewRoutes], ?_⟩
    rcases Bool.eq_false_or_eq_true (jsGt (parseIntJS (ls2 "BladeMod")) 1) with ei | ei
    · have hi : integrations ls2 =
          { path := "/integrations", sidebarName := some "Integrations",
            navbarName := "Integrations", icon := some Icon.PowerIcon,
            component := some ViewComponent.IntegrationsView,
            redirect := false, redirectTo := none } := by
        unfold integrations; rw [ei]; rfl
      simp only [viewRoutes, hv1, hv2, hi, dashboard]
      decide
    · have hi : integrations ls2 =
          { path := "/integrations", sidebarName := none,
            navbarName := "Integrations", icon := some Icon.PowerIcon,
            component := some ViewComponent.IntegrationsView,
            redirect := false, redirectTo := none } := by
        unfold integrations; rw [ei]; rfl
      simp only [viewRoutes, hv1, hv2, hi, dashboard]
      decide
  · have e1 : jsGt (parseIntJS (ls1 "BladeMod")) 1 = true := by
      rw [h1]; simpa [jsGt] using hgt
    have e2 : jsGt (parseIntJS (ls2 "BladeMod")) 1 = false := by
      rw [h2]; simpa [jsGt] using hle
    have hi1 : integrations ls1 =
        { path := "/integrations", sidebarName := some "Integrations",
          navbarName := "Integrations", icon := some Icon.PowerIcon,
          component := some ViewComponent.IntegrationsView,
          redirect := false, redirectTo := none } := by
      unfold integrations; rw [e1]; rfl
    have hi2 : integrations ls2 =
        { path := "/integrations", sidebarName := none,
          navbarName := "Integrations", icon := some Icon.PowerIcon,
          component := some ViewComponent.IntegrationsView,
          redirect := false, redirectTo := none } := by
      unfold integrations; rw [e2]; rfl
    refine ⟨integrations ls1, by simp [viewRoutes], ?_⟩
    rcases Bool.eq_false_or_eq_true (jsGt (parseIntJS (ls2 "BladeMod")) 2) with ev | ev
    · have hv : virtuals ls2 =
          { path := "/virtuals", sidebarName := some "Virtual Strips",
            navbarName := "Virtual Strips", icon := some Icon.DeviceHubIcon,
            component := some ViewComponent.VirtualsView,
            redirect := false, redirectTo := none } := by
        unfold virtuals; rw [ev]; rfl
      simp only [viewRoutes, hi1, hi2, hv, dashboard]
      decide
    · have hv : virtuals ls2 =
          { path := "/virtuals", sidebarName := none,
            navbarName := "Virtual Strips", icon := some Icon.DeviceHubIcon,
            component := some ViewComponent.VirtualsView,
            redirect := false, redirectTo := none } := by
        unfold virtuals; rw [ev]; rfl
      simp only [viewRoutes, hi1, hi2, hv, dashboard]
      decide

/-- Witness for C2 at BladeMod strings "3" and "0". -/
theorem C2_blade_mod_gates_routes_witness :
    ∃ r, r ∈ viewRoutes lsBlade3 ∧ r ∉ viewRoutes lsBlade0 :=
  C2_blade_mod_gates_routes lsBlade3 lsBlade0 3 0 rfl rfl (Or.inl ⟨by decide, by decide⟩)

/-- Claim C3: `shutdown()` issues exactly one HTTP PUT to '/shutdown' with
payload `timeout: 0` and returns the result of that request. -/
theorem C3_shutdown_single_put (ρ : Type) (backend : Request → ρ) :
    (shutdown backend).requests
      = [{ method := Method.put, path := "/shutdown",
           body := some (JSValue.obj [("timeout", JSValue.num 0)]) }] ∧
    (shutdown backend).result
      = backend { method := Method.put, path := "/shutdown",
                  body := some (JSValue.obj [("timeout", JSValue.num 0)]) } :=
  ⟨rfl, rfl⟩

/-- Claim C4: `getSystemConfig()` issues a GET to '/config', and
`setSystemConfig(config)` issues a POST to '/config' whose body is
exactly the given config value. -/
theorem C4_config_endpoints (ρ : Type) (backend : Request → ρ) (config : JSValue) :
    (getSystemConfig backend).requests
      = [{ method := Method.get, path := "/config", body := none }] ∧
    (setSystemConfig backend config).requests
      = [{ method := Method.post, path := "/config", body := some config }] :=
  ⟨rfl, rfl⟩

/-- Claim C5: `getSystemInfo()` issues a GET to '/info',
`getAudioInputs()` a GET to '/audio/devices', and
`updateSelectedAudioInput(data)` a PUT to '/audio/devices' whose body is
exactly the given data value. -/
theorem C5_info_and_audio_endpoints (ρ : Type) (backend : Request → ρ) (data : JSValue) :
    (getSystemInfo backend).requests
      = [{ method := Method.get, path := "/info", body := none }] ∧
    (getAudioInputs backend).requests
      = [{ method := Method.get, path := "/audio/devices", body := none }] ∧
    (updateSelectedAudioInput backend data).requests
      = [{ method := Method.put, path := "/audio/devices", body := some data }] :=
  ⟨rfl, rfl, rfl⟩

/-- Claim C6 counterexample: in the rendered card, the Select's onChange
handler is `addDevice`, which only logs 'adding now' and performs no
`addDisplay` dispatch, so selecting a transition mode does not dispatch
`addDisplay`. -/
theorem C6_select_counterexample :
    (renderTransitionCard exampleSchemas).selectOnChange = [Action.consoleLog "adding now"] ∧
    containsDispatch (renderTransitionCard exampleSchemas).selectOnChange = false :=
  ⟨rfl, rfl⟩

/-- Claim C6 as amended: the card wires the Select's onChange to
`addDevice`, which dispatches nothing; the handler `handleSetTransition`,
which when invoked dispatches `addDisplay` carrying the display's id and
the configuration, is defined but not wired to the Select. -/
theorem C6_amended_handler_dispatches (schemas : DisplaysSchemaProperties)
    (displayId : String) (config : JSValue) :
    (renderTransitionCard schemas).selectOnChange = addDevice ∧
    containsDispatch addDevice = false ∧
    handleSetTransition displayId config ()
      = [Action.dispatchAddDisplay
          (JSValue.obj [("id", JSValue.str displayId), ("config", config)])] :=
  ⟨rfl, rfl, rfl⟩

/-- Claim C7: each of the six API-client operations issues exactly one
HTTP request and returns the backend's answer to that request unchanged:
no retry, no error transformation, no recovery. -/
theorem C7_single_request_no_recovery (ρ : Type) (backend : Request → ρ)
    (config data : JSValue) :
    returnsSingleRequest backend (shutdown backend) ∧
    returnsSingleRequest backend (getSystemConfig backend) ∧
    returnsSingleRequest backend (setSystemConfig backend config) ∧
    returnsSingleRequest backend (getSystemInfo backend) ∧
    returnsSingleRequest backend (getAudioInputs backend) ∧
    returnsSingleRequest backend (updateSelectedAudioInput backend data) :=
  ⟨⟨_, rfl, rfl⟩, ⟨_, rfl, rfl⟩, ⟨_, rfl, rfl⟩, ⟨_, rfl, rfl⟩, ⟨_, rfl, rfl⟩, ⟨_, rfl, rfl⟩⟩

/-- Claim C8: for every local storage, the two branches of `virtuals` and
`integrations` agree on path, navbarName, icon and component (differing at
most in the presence of sidebarName), and `dashboard` is one fixed object
with path '/dashboard' and component BladeboardDnDView. -/
theorem C8_branches_differ_only_in_sidebar (ls : LocalStorage) :
    (virtuals ls).path = "/virtuals" ∧
    (virtuals ls).navbarName = "Virtual Strips" ∧
    (virtuals ls).icon = some Icon.DeviceHubIcon ∧
    (virtuals ls).component = some ViewComponent.VirtualsView ∧
    ((virtuals ls).sidebarName = some "Virtual Strips" ∨ (virtuals ls).sidebarName = none) ∧
    (integrations ls).path = "/integrations" ∧
    (integrations ls).navbarName = "Integrations" ∧
    (integrations ls).icon = some Icon.PowerIcon ∧
    (integrations ls).component = some ViewComponent.IntegrationsView ∧
    ((integrations ls).sidebarName = some "Integrations" ∨ (integrations ls).sidebarName = none) ∧
    dashboard = { path := "/dashboard", sidebarName := some "Dashboard",
                  navbarName := "Dashboard", icon := some Icon.Dashboard,
                  component := some ViewComponent.BladeboardDnDView,
                  redirect := false, redirectTo := none } := by
  unfold virtuals integrations
  rcases Bool.eq_false_or_eq_true (jsGt (parseIntJS (ls "BladeMod")) 2) with h2 | h2 <;>
    rcases Bool.eq_false_or_eq_true (jsGt (parseIntJS (ls "BladeMod")) 1) with ho | ho <;>
      simp [h2, ho, dashboard]

/-- Claim C9: when the BladeMod local-storage value is absent or does not
parse to a number, both threshold comparisons are false, both gated routes
take the branch without a sidebarName, and the route table is still built
in full (nine entries). -/
theorem C9_nan_blade_mod_defaults (ls : LocalStorage)
    (h : parseIntJS (ls "BladeMod") = none) :
    jsGt (parseIntJS (ls "BladeMod")) 2 = false ∧
    jsGt (parseIntJS (ls "BladeMod")) 1 = false ∧
    (virtuals ls).sidebarName = none ∧
    (integrations ls).sidebarName = none ∧
    (viewRoutes ls).length = 9 := by
  refine ⟨by rw [h]; rfl, by rw [h]; rfl, ?_, ?_, rfl⟩
  · unfold virtuals; rw [h]; rfl
  · unfold integrations; rw [h]; rfl

/-- Witness for C9 at the empty local storage. -/
theorem C9_nan_blade_mod_defaults_witness :
    jsGt (parseIntJS (lsEmpty "BladeMod")) 2 = false ∧
    jsGt (parseIntJS (lsEmpty "BladeMod")) 1 = false ∧
    (virtuals lsEmpty).sidebarName = none ∧
    (integrations lsEmpty).sidebarName = none ∧
    (viewRoutes lsEmpty).length = 9 :=
  C9_nan_blade_mod_defaults lsEmpty rfl

/-- Claim C10: when the display's config object has no entry for the
display's id, or that entry is an object without a nested `config` field,
the guarded reads of `transition_mode` and `transition_time` evaluate to
the falsy value `undefined` without throwing. -/
theorem C10_guarded_reads_never_throw (d : Display) (fields : List (String × JSValue))
    (hc : d.config = JSValue.obj fields)
    (h : fields.lookup d.id = none ∨
      ∃ fs, fields.lookup d.id = some (JSValue.obj fs) ∧ fs.lookup "config" = none) :
    transition_mode d = Except.ok JSValue.undefined ∧
    transition_time d = Except.ok JSValue.undefined ∧
    truthy JSValue.undefined = false := by
  rcases h with h | ⟨fs, h, hfs⟩
  · refine ⟨?_, ?_, rfl⟩ <;>
      simp [transition_mode, transition_time, jsAnd, truthy, getProp, hc, h]
  · refine ⟨?_, ?_, rfl⟩ <;>
      simp [transition_mode, transition_time, jsAnd, truthy, getProp, hc, h, hfs,
        Except.bind, bind]

/-- Witness for C10 at a display whose config object is empty. -/
theorem C10_guarded_reads_never_throw_witness :
    transition_mode exampleDisplay = Except.ok JSValue.undefined ∧
    transition_time exampleDisplay = Except.ok JSValue.undefined ∧
    truthy JSValue.undefined = false :=
  C10_guarded_reads_never_throw exampleDisplay [] rfl (Or.inl rfl)

end LedFx
